import Mathlib

/-!
# Raspberry Pi Sense HAT drivers: joystick interrupt handler and probe paths

Shallow embedding of `sensehat-joystick.c` and `sensehat-core.c`.

* The input device (`keys_dev`) is an event sink: the calls made on it are
  collected in a list, in program order.
* A `regmap_read` is an answer of the bus: an `int` return code together with
  the value written through the out-pointer.  The register map is configured
  with `val_bits = 8`, so the value is a byte; it is kept as a `Nat`, and the
  conversions `int -> unsigned long` of the handler are value preserving.
* Kernel services used by the probe functions are answers of the environment,
  collected in a record.
-/

namespace Sensehat

/-! ## Kernel constants and helpers -/

/-- Event code `BTN_SELECT` of `input-event-codes.h`. -/
def BTN_SELECT : Nat := 0x13a
/-- Event code `BTN_DPAD_UP` of `input-event-codes.h`. -/
def BTN_DPAD_UP : Nat := 0x220
/-- Event code `BTN_DPAD_DOWN` of `input-event-codes.h`. -/
def BTN_DPAD_DOWN : Nat := 0x221
/-- Event code `BTN_DPAD_LEFT` of `input-event-codes.h`. -/
def BTN_DPAD_LEFT : Nat := 0x222
/-- Event code `BTN_DPAD_RIGHT` of `input-event-codes.h`. -/
def BTN_DPAD_RIGHT : Nat := 0x223

/-- Errno value `ENOMEM`. -/
def ENOMEM : Int := 12

/-- Largest errno that an error pointer can carry (`MAX_ERRNO`). -/
def MAX_ERRNO : Int := 4095

/-- The table `keymap[]` of `sensehat-joystick.c`. -/
def keymap : List Nat :=
  [BTN_DPAD_DOWN, BTN_DPAD_RIGHT, BTN_DPAD_UP, BTN_SELECT, BTN_DPAD_LEFT]

/-- The macro `ARRAY_SIZE`. -/
def ARRAY_SIZE (a : List Nat) : Nat := a.length

/-- The macro `BIT(i)`, that is `1UL << i`. -/
def BIT (i : Nat) : Nat := 1 <<< i

/-- Return values of an interrupt handler. -/
inductive irqreturn_t
  | IRQ_NONE
  | IRQ_HANDLED
deriving DecidableEq, Repr

/-- A call made on the input device. -/
inductive SinkCall
  | reportKey (code : Nat) (pressed : Bool)
  | sync
deriving DecidableEq, Repr

/-- The kernel helper `input_report_key(dev, code, value)`: it forwards
`input_event(dev, EV_KEY, code, !!value)`. -/
def input_report_key (code : Nat) (value : Nat) : SinkCall :=
  SinkCall.reportKey code (value != 0)

/-- The kernel helper `input_sync(dev)`. -/
def input_sync : SinkCall := SinkCall.sync

/-- The kernel helper `bitmap_xor(dst, src1, src2, nbits)` for a bitmap that
fits one word (`nbits` a small constant): `*dst = *src1 ^ *src2`. -/
def bitmap_xor (src1 src2 : Nat) (_nbits : Nat) : Nat := src1 ^^^ src2

/-- The kernel iterator `for_each_set_bit(i, addr, size)`: the indices below
`size` whose bit is set in `addr`, in ascending order. -/
def for_each_set_bit (addr : Nat) (size : Nat) : List Nat :=
  (List.range size).filter (fun i => addr.testBit i)

/-! ## Joystick driver state and interrupt handler -/

/-- The fields of `struct sensehat_joystick` that hold data of the driver:
the key bits and event bits configured on `keys_dev`, the previous snapshot
and the register address. -/
structure sensehat_joystick where
  keybit : Nat
  evbit : Nat
  prev_states : Nat
  joystick_register : Nat
deriving DecidableEq, Repr

/-- Answer of `regmap_read(regmap, reg, &keys)`: the return code and the
value stored in `keys`. -/
structure RegmapRead where
  error : Int
  val : Nat
deriving DecidableEq, Repr

/-- What one run of the interrupt handler does: its return value, the calls it
made on the input device, and the driver state it leaves. -/
structure ReportResult where
  ret : irqreturn_t
  calls : List SinkCall
  dev : sensehat_joystick
deriving DecidableEq, Repr

/-- The threaded interrupt handler `sensehat_joystick_report`. -/
def sensehat_joystick_report (sj : sensehat_joystick) (rd : RegmapRead) : ReportResult :=
  let error := rd.error
  let keys := rd.val
  if error < 0 then
    { ret := irqreturn_t.IRQ_NONE, calls := [], dev := sj }
  else
    let curr_states := keys
    let changes := bitmap_xor curr_states sj.prev_states (ARRAY_SIZE keymap)
    let reports := (for_each_set_bit changes (ARRAY_SIZE keymap)).map
      (fun i => input_report_key (keymap.getD i 0) (curr_states &&& BIT i))
    { ret := irqreturn_t.IRQ_HANDLED
      calls := reports ++ [input_sync]
      dev := { sj with prev_states := keys } }

/-- What a sequence of interrupts does: the return values, all calls on the
input device in order, and the final driver state. -/
structure RunResult where
  outcomes : List irqreturn_t
  calls : List SinkCall
  dev : sensehat_joystick
deriving DecidableEq, Repr

/-- The handler invoked once per bus answer, in order; invocations of one
device are serialised by the interrupt core. -/
def run (sj : sensehat_joystick) : List RegmapRead → RunResult
  | [] => { outcomes := [], calls := [], dev := sj }
  | rd :: rest =>
    let r := sensehat_joystick_report sj rd
    let rr := run r.dev rest
    { outcomes := r.ret :: rr.outcomes, calls := r.calls ++ rr.calls, dev := rr.dev }

/-! ## Probe of the joystick platform device -/

/-- Event type `EV_KEY`. -/
def EV_KEY : Nat := 0x01
/-- Event type `EV_REP`. -/
def EV_REP : Nat := 0x14

/-- The macro `BIT_MASK(nr)` for a bit number below the word size. -/
def BIT_MASK (nr : Nat) : Nat := 1 <<< nr

/-- The kernel helper `set_bit(nr, addr)` on a bitmap kept as a number. -/
def set_bit (nr : Nat) (addr : Nat) : Nat := addr ||| (1 <<< nr)

/-- Answer of `device_property_read_u32(dev, "reg", &out)`: the return code and
the value stored on success. -/
structure PropertyRead where
  error : Int
  val : Nat
deriving DecidableEq, Repr

/-- Answers of the kernel services called by `sensehat_joystick_probe`.
A `Bool` is whether the allocator returned a non-NULL pointer. -/
structure ProbeEnv where
  devm_kzalloc : Bool
  devm_input_allocate_device : Bool
  input_register_device : Int
  device_property_read_u32 : PropertyRead
  of_irq_get : Int
  devm_request_threaded_irq : Int → Int

/-- What a probe that returned did: its return value, the interrupt line it
passed to `devm_request_threaded_irq` (when it made that call), whether the
handler is installed, and the driver state. -/
structure ProbeResult where
  ret : Int
  irq_requested : Option Int
  handler_armed : Bool
  dev : sensehat_joystick
deriving DecidableEq, Repr

/-- The function `sensehat_joystick_probe`.  The result of `devm_kzalloc` is
dereferenced unchecked: on NULL the probe faults and there is no return value
(`none`). -/
def sensehat_joystick_probe (env : ProbeEnv) : Option ProbeResult :=
  if env.devm_kzalloc = false then none
  else
    let sj0 : sensehat_joystick :=
      { keybit := 0, evbit := 0, prev_states := 0, joystick_register := 0 }
    if env.devm_input_allocate_device = false then
      some { ret := -ENOMEM, irq_requested := none, handler_armed := false, dev := sj0 }
    else
      let sj1 := { sj0 with
        keybit := (List.range (ARRAY_SIZE keymap)).foldl
          (fun kb i => set_bit (keymap.getD i 0) kb) sj0.keybit }
      let sj2 := { sj1 with evbit := BIT_MASK EV_KEY ||| BIT_MASK EV_REP }
      let error := env.input_register_device
      if error ≠ 0 then
        some { ret := error, irq_requested := none, handler_armed := false, dev := sj2 }
      else
        let error := env.device_property_read_u32.error
        if error ≠ 0 then
          some { ret := error, irq_requested := none, handler_armed := false, dev := sj2 }
        else
          let sj3 := { sj2 with
            joystick_register := env.device_property_read_u32.val % 2 ^ 32 }
          let irq := env.of_irq_get
          let error := env.devm_request_threaded_irq irq
          if error ≠ 0 then
            some { ret := error, irq_requested := some irq, handler_armed := false, dev := sj3 }
          else
            some { ret := 0, irq_requested := some irq, handler_armed := true, dev := sj3 }

/-! ## Probe of the core i2c device -/

/-- The kernel helper `IS_ERR(ptr)` on the pointer value read as a `long`:
the top `MAX_ERRNO` addresses are error codes. -/
def IS_ERR (ptr : Int) : Bool := decide (-MAX_ERRNO ≤ ptr ∧ ptr < 0)

/-- The kernel helper `PTR_ERR(ptr)`. -/
def PTR_ERR (ptr : Int) : Int := ptr

/-- Answers of the kernel services called by `sensehat_probe`: the pointer
returned by `devm_regmap_init_i2c` (as a `long`) and the return code of
`devm_of_platform_populate`. -/
structure CoreEnv where
  devm_regmap_init_i2c : Int
  devm_of_platform_populate : Int
deriving DecidableEq, Repr

/-- What `sensehat_probe` did: its return value and whether it called
`devm_of_platform_populate`. -/
structure CoreResult where
  ret : Int
  populate_called : Bool
deriving DecidableEq, Repr

/-- The function `sensehat_probe` of `sensehat-core.c`. -/
def sensehat_probe (env : CoreEnv) : CoreResult :=
  let regmap := env.devm_regmap_init_i2c
  if IS_ERR regmap then
    { ret := PTR_ERR regmap, populate_called := false }
  else
    let _ignored := env.devm_of_platform_populate
    { ret := 0, populate_called := true }

/-! ## Observers used to state properties of a call trace -/

/-- Key state held by a consumer of the event stream, per event code; a
`reportKey` sets the state of its code, a `sync` leaves the state as is. -/
def applyCall (st : Nat → Bool) : SinkCall → (Nat → Bool)
  | SinkCall.reportKey c b => fun k => if k = c then b else st k
  | SinkCall.sync => st

/-- The consumer state after a sequence of calls, applied in order. -/
def applyCalls (st : Nat → Bool) (cs : List SinkCall) : Nat → Bool :=
  cs.foldl applyCall st

/-- The consumer state in which every key is released. -/
def allReleased : Nat → Bool := fun _ => false

/-- The consumer state of the five joystick keys as a bitfield, bit `i` for
the key `keymap[i]`. -/
def buttonBits (st : Nat → Bool) : Nat :=
  ((List.range (ARRAY_SIZE keymap)).map
    (fun i => if st (keymap.getD i 0) then BIT i else 0)).sum

/-- The `pressed` values reported for one event code, in order. -/
def keyEvents (code : Nat) (cs : List SinkCall) : List Bool :=
  cs.filterMap (fun c =>
    match c with
    | SinkCall.reportKey k b => if k = code then some b else none
    | SinkCall.sync => none)

/-- Whether a sequence of `pressed` values is `b, !b, b, ...`. -/
def alternates : Bool → List Bool → Bool
  | _, [] => true
  | b, x :: xs => (x == b) && alternates (!b) xs

/-- The value of the last bus answer that was not a failure, if any. -/
def lastSuccessful (reads : List RegmapRead) : Option Nat :=
  reads.foldl (fun acc rd => if rd.error < 0 then acc else some rd.val) none

/-! ## Reference engine, written from the specification -/

/-- Logical buttons of the specification. -/
inductive Button
  | Down
  | Right
  | Up
  | Select
  | Left
deriving DecidableEq, Repr

/-- Width `W` of the button bitfield. -/
def W : Nat := 5

/-- Mask of the low `W` bits. -/
def mask : Nat := 2 ^ W - 1

/-- The table `KeyMap` of the specification: bit index to logical button. -/
def KeyMap : List Button :=
  [Button.Down, Button.Right, Button.Up, Button.Select, Button.Left]

/-- Outcome of `handleInterrupt` in the specification. -/
inductive HandlerOutcome
  | Handled
  | NotHandled
deriving DecidableEq, Repr

/-- Calls on the event sink of the specification. -/
inductive RefEvent
  | reportKey (button : Button) (pressed : Bool)
  | sync
deriving DecidableEq, Repr

/-- Result of one step of the reference engine. -/
structure RefResult where
  outcome : HandlerOutcome
  events : List RefEvent
  previous : Nat
deriving DecidableEq, Repr

/-- One `handleInterrupt` of the specification (section 4.2, steps 1 to 8):
a failed read changes nothing; otherwise the read is masked to `current`,
`changed = (current XOR previous) & mask`, one event per set bit of `changed`
in ascending order, one `sync`, and `current` is stored. -/
def refHandleInterrupt (previous : Nat) (read : Option Nat) : RefResult :=
  match read with
  | none => { outcome := HandlerOutcome.NotHandled, events := [], previous := previous }
  | some raw =>
    let current := raw &&& mask
    let changed := (current ^^^ previous) &&& mask
    let events := ((List.range W).filter (fun i => changed.testBit i)).map
      (fun i => RefEvent.reportKey (KeyMap.getD i Button.Down) (current.testBit i))
    { outcome := HandlerOutcome.Handled
      events := events ++ [RefEvent.sync]
      previous := current }

/-- Result of a sequence of steps of the reference engine. -/
structure RefRunResult where
  outcomes : List HandlerOutcome
  events : List RefEvent
  previous : Nat
deriving DecidableEq, Repr

/-- The reference engine stepped once per read result, in order. -/
def refRun (previous : Nat) : List (Option Nat) → RefRunResult
  | [] => { outcomes := [], events := [], previous := previous }
  | rd :: rest =>
    let r := refHandleInterrupt previous rd
    let rr := refRun r.previous rest
    { outcomes := r.outcome :: rr.outcomes, events := r.events ++ rr.events,
      previous := rr.previous }

/-- The read result of the specification carried by a bus answer: the driver
treats a negative return code as the failure. -/
def busResult (rd : RegmapRead) : Option Nat :=
  if rd.error < 0 then none else some rd.val

/-- The event code the driver uses for a logical button. -/
def Button.code : Button → Nat
  | Button.Down => BTN_DPAD_DOWN
  | Button.Right => BTN_DPAD_RIGHT
  | Button.Up => BTN_DPAD_UP
  | Button.Select => BTN_SELECT
  | Button.Left => BTN_DPAD_LEFT

/-- A sink call of the specification as a call on the input device. -/
def RefEvent.toSinkCall : RefEvent → SinkCall
  | RefEvent.reportKey b p => SinkCall.reportKey b.code p
  | RefEvent.sync => SinkCall.sync

/-- The outcome of the specification for a handler return value. -/
def outcomeOf : irqreturn_t → HandlerOutcome
  | irqreturn_t.IRQ_NONE => HandlerOutcome.NotHandled
  | irqreturn_t.IRQ_HANDLED => HandlerOutcome.Handled

/-! ## Environments and observers used in the statements -/

/-- An environment in which every service called by the joystick probe
succeeds: register address `0xf2`, interrupt line 23. -/
def goodEnv : ProbeEnv :=
  { devm_kzalloc := true
    devm_input_allocate_device := true
    input_register_device := 0
    device_property_read_u32 := { error := 0, val := 0xf2 }
    of_irq_get := 23
    devm_request_threaded_irq := fun _ => 0 }

/-- An environment in which registering the input device fails with
`-EINVAL` and every other service would succeed. -/
def registerFailsEnv : ProbeEnv :=
  { devm_kzalloc := true
    devm_input_allocate_device := true
    input_register_device := -22
    device_property_read_u32 := { error := 0, val := 0xf2 }
    of_irq_get := 23
    devm_request_threaded_irq := fun _ => 0 }

/-- The pressed state that a snapshot word assigns to an event code: bit `i`
for the code `keymap[i]`, released for any other code. -/
def keyState (p : Nat) (k : Nat) : Bool :=
  if k = BTN_DPAD_DOWN then p.testBit 0
  else if k = BTN_DPAD_RIGHT then p.testBit 1
  else if k = BTN_DPAD_UP then p.testBit 2
  else if k = BTN_SELECT then p.testBit 3
  else if k = BTN_DPAD_LEFT then p.testBit 4
  else false

/-! ## Basic facts about the handler -/

theorem pressed_eq_testBit (v i : Nat) : ((v &&& BIT i) != 0) = v.testBit i := by
  unfold BIT
  rw [Nat.one_shiftLeft]
  cases h : v.testBit i
  · have : v &&& 2 ^ i = 0 := by
      apply Nat.eq_of_testBit_eq
      intro j
      simp only [Nat.testBit_and, Nat.testBit_two_pow, Nat.zero_testBit]
      by_cases hj : i = j
      · subst hj; simp [h]
      · simp [hj]
    simp [this]
  · have : (v &&& 2 ^ i).testBit i = true := by
      simp [Nat.testBit_and, Nat.testBit_two_pow, h]
    have hne : v &&& 2 ^ i ≠ 0 := by
      intro h0
      rw [h0] at this
      simp at this
    simp [hne]

theorem filter_map_five {α : Type} (f : Nat → Bool) (g : Nat → α) :
    ((List.range 5).filter f).map g =
      (if f 0 then [g 0] else []) ++ (if f 1 then [g 1] else []) ++
      (if f 2 then [g 2] else []) ++ (if f 3 then [g 3] else []) ++
      (if f 4 then [g 4] else []) := by
  have hr : List.range 5 = [0, 1, 2, 3, 4] := by decide
  rw [hr]
  cases h0 : f 0 <;> cases h1 : f 1 <;> cases h2 : f 2 <;> cases h3 : f 3 <;>
    cases h4 : f 4 <;> simp [List.filter, h0, h1, h2, h3, h4]

/-- The calls of a handler run whose read did not fail, one conditional
singleton per joystick bit. -/
theorem report_calls_unrolled (sj : sensehat_joystick) (e : Int) (v : Nat) (he : ¬ e < 0) :
    (sensehat_joystick_report sj ⟨e, v⟩).calls =
      (if (v.testBit 0 != sj.prev_states.testBit 0)
        then [SinkCall.reportKey BTN_DPAD_DOWN (v.testBit 0)] else []) ++
      (if (v.testBit 1 != sj.prev_states.testBit 1)
        then [SinkCall.reportKey BTN_DPAD_RIGHT (v.testBit 1)] else []) ++
      (if (v.testBit 2 != sj.prev_states.testBit 2)
        then [SinkCall.reportKey BTN_DPAD_UP (v.testBit 2)] else []) ++
      (if (v.testBit 3 != sj.prev_states.testBit 3)
        then [SinkCall.reportKey BTN_SELECT (v.testBit 3)] else []) ++
      (if (v.testBit 4 != sj.prev_states.testBit 4)
        then [SinkCall.reportKey BTN_DPAD_LEFT (v.testBit 4)] else []) ++
      [SinkCall.sync] := by
  have hsz : ARRAY_SIZE keymap = 5 := rfl
  simp only [sensehat_joystick_report, if_neg he, hsz, for_each_set_bit, bitmap_xor,
    filter_map_five, input_report_key, pressed_eq_testBit, Nat.testBit_xor, input_sync]
  rfl

theorem report_ret_ok (sj : sensehat_joystick) (e : Int) (v : Nat) (he : ¬ e < 0) :
    (sensehat_joystick_report sj ⟨e, v⟩).ret = irqreturn_t.IRQ_HANDLED := by
  simp [sensehat_joystick_report, he]

theorem report_dev_ok (sj : sensehat_joystick) (e : Int) (v : Nat) (he : ¬ e < 0) :
    (sensehat_joystick_report sj ⟨e, v⟩).dev = { sj with prev_states := v } := by
  simp [sensehat_joystick_report, he]

theorem report_fail (sj : sensehat_joystick) (e : Int) (v : Nat) (he : e < 0) :
    sensehat_joystick_report sj ⟨e, v⟩ =
      { ret := irqreturn_t.IRQ_NONE, calls := [], dev := sj } := by
  simp [sensehat_joystick_report, he]

theorem testBit_31 (x i : Nat) (hi : i < 5) : (x &&& 31).testBit i = x.testBit i := by
  have h : (31 : Nat) = 2 ^ 5 - 1 := by decide
  rw [h, Nat.testBit_and, Nat.testBit_two_pow_sub_one]
  simp [hi]

/-! ## The interrupt handler, one invocation -/

/-- C1: for every previous snapshot and every read that did not fail, the
handler returns `IRQ_HANDLED` and its calls are, for the bits 0..4 in ascending
order, one `reportKey` of the key of that bit (Down, Right, Up, Select, Left)
with `pressed` the bit of the read value, for exactly the bits that differ
from the previous snapshot, followed by exactly one `sync`. -/
theorem report_emits_changed_bits_then_sync (sj : sensehat_joystick) (e : Int) (v : Nat)
    (he : ¬ e < 0) :
    (sensehat_joystick_report sj ⟨e, v⟩).ret = irqreturn_t.IRQ_HANDLED ∧
    (sensehat_joystick_report sj ⟨e, v⟩).calls =
      (if (v.testBit 0 != sj.prev_states.testBit 0)
        then [SinkCall.reportKey BTN_DPAD_DOWN (v.testBit 0)] else []) ++
      (if (v.testBit 1 != sj.prev_states.testBit 1)
        then [SinkCall.reportKey BTN_DPAD_RIGHT (v.testBit 1)] else []) ++
      (if (v.testBit 2 != sj.prev_states.testBit 2)
        then [SinkCall.reportKey BTN_DPAD_UP (v.testBit 2)] else []) ++
      (if (v.testBit 3 != sj.prev_states.testBit 3)
        then [SinkCall.reportKey BTN_SELECT (v.testBit 3)] else []) ++
      (if (v.testBit 4 != sj.prev_states.testBit 4)
        then [SinkCall.reportKey BTN_DPAD_LEFT (v.testBit 4)] else []) ++
      [SinkCall.sync] :=
  ⟨report_ret_ok sj e v he, report_calls_unrolled sj e v he⟩

/-- C1 at the two inputs of the specification: from `0b00001` a read of
`0b00110` gives Down released, Right pressed, Up pressed, sync; from zero a
read of `0b00010` gives Right pressed, sync. -/
theorem report_emits_changed_bits_then_sync_witness :
    ¬ ((0 : Int) < 0) ∧
    (sensehat_joystick_report ⟨0, 0, 0b00001, 0⟩ ⟨0, 0b00110⟩).calls =
      [SinkCall.reportKey BTN_DPAD_DOWN false, SinkCall.reportKey BTN_DPAD_RIGHT true,
       SinkCall.reportKey BTN_DPAD_UP true, SinkCall.sync] ∧
    (sensehat_joystick_report ⟨0, 0, 0, 0⟩ ⟨0, 0b00010⟩).calls =
      [SinkCall.reportKey BTN_DPAD_RIGHT true, SinkCall.sync] :=
  ⟨by decide,
   (report_emits_changed_bits_then_sync ⟨0, 0, 0b00001, 0⟩ 0 0b00110 (by decide)).2.trans
     (by decide),
   (report_emits_changed_bits_then_sync ⟨0, 0, 0, 0⟩ 0 0b00010 (by decide)).2.trans
     (by decide)⟩

/-- C2: when the read fails the handler returns `IRQ_NONE`, makes no call on
the input device and leaves the driver state (so the previous snapshot) as it
was; a failed read followed by any read makes the calls, and leaves the state,
of that second read alone. -/
theorem report_failure_preserves_state (sj : sensehat_joystick) (e : Int) (x : Nat)
    (he : e < 0) :
    (sensehat_joystick_report sj ⟨e, x⟩).ret = irqreturn_t.IRQ_NONE ∧
    (sensehat_joystick_report sj ⟨e, x⟩).calls = [] ∧
    (sensehat_joystick_report sj ⟨e, x⟩).dev = sj ∧
    (sensehat_joystick_report sj ⟨e, x⟩).dev.prev_states = sj.prev_states ∧
    ∀ rd : RegmapRead,
      (run sj [⟨e, x⟩, rd]).calls = (sensehat_joystick_report sj rd).calls ∧
      (run sj [⟨e, x⟩, rd]).calls = (run sj [rd]).calls ∧
      (run sj [⟨e, x⟩, rd]).dev = (run sj [rd]).dev := by
  have h := report_fail sj e x he
  refine ⟨by rw [h], by rw [h], by rw [h], by rw [h], ?_⟩
  intro rd
  simp [run, h]

/-- C2 at the input of the specification: from `0b00001` a failed read
(`-EIO`) then a read of `0b00110` is diffed against `0b00001`. -/
theorem report_failure_preserves_state_witness :
    (-5 : Int) < 0 ∧
    (sensehat_joystick_report ⟨0, 0, 0b00001, 0⟩ ⟨-5, 0xff⟩).calls = [] ∧
    (sensehat_joystick_report ⟨0, 0, 0b00001, 0⟩ ⟨-5, 0xff⟩).dev.prev_states = 0b00001 ∧
    (run ⟨0, 0, 0b00001, 0⟩ [⟨-5, 0xff⟩, ⟨0, 0b00110⟩]).calls =
      [SinkCall.reportKey BTN_DPAD_DOWN false, SinkCall.reportKey BTN_DPAD_RIGHT true,
       SinkCall.reportKey BTN_DPAD_UP true, SinkCall.sync] :=
  have h := report_failure_preserves_state ⟨0, 0, 0b00001, 0⟩ (-5) 0xff (by decide)
  ⟨by decide, h.2.1, h.2.2.2.1, ((h.2.2.2.2 ⟨0, 0b00110⟩).1).trans (by decide)⟩

/-- C3: when two consecutive invocations both read the same value without
failure, the second makes the single call `sync` (no `reportKey`), and the
first makes exactly one `sync`, which is its last call. -/
theorem report_same_value_twice (sj : sensehat_joystick) (e₁ e₂ : Int) (v : Nat)
    (h₁ : ¬ e₁ < 0) (h₂ : ¬ e₂ < 0) :
    (sensehat_joystick_report (sensehat_joystick_report sj ⟨e₁, v⟩).dev ⟨e₂, v⟩).calls
      = [SinkCall.sync] ∧
    ((sensehat_joystick_report (sensehat_joystick_report sj ⟨e₁, v⟩).dev ⟨e₂, v⟩).calls.filter
      (fun c => c != SinkCall.sync)).length = 0 ∧
    (sensehat_joystick_report (sensehat_joystick_report sj ⟨e₁, v⟩).dev ⟨e₂, v⟩).calls.count
      SinkCall.sync = 1 ∧
    (sensehat_joystick_report sj ⟨e₁, v⟩).calls.count SinkCall.sync = 1 := by
  have hsecond :
      (sensehat_joystick_report (sensehat_joystick_report sj ⟨e₁, v⟩).dev ⟨e₂, v⟩).calls
        = [SinkCall.sync] := by
    rw [report_calls_unrolled _ e₂ v h₂, report_dev_ok sj e₁ v h₁]
    simp
  refine ⟨hsecond, by rw [hsecond]; decide, by rw [hsecond]; decide, ?_⟩
  rw [report_calls_unrolled sj e₁ v h₁]
  simp only [List.count_append]
  split_ifs <;> simp [List.count_cons]

/-- C3 at a value with high bits set, from a non-zero snapshot. -/
theorem report_same_value_twice_witness :
    ¬ ((0 : Int) < 0) ∧
    (sensehat_joystick_report
      (sensehat_joystick_report ⟨0, 0, 0b01010, 0⟩ ⟨0, 0b11100101⟩).dev ⟨0, 0b11100101⟩).calls
      = [SinkCall.sync] :=
  ⟨by decide,
   (report_same_value_twice ⟨0, 0, 0b01010, 0⟩ 0 0 0b11100101 (by decide) (by decide)).1⟩

/-- C4: a read of the raw byte `r` gives the same return value and the same
calls as a read of `r AND 0b11111` from the same driver state, whatever the
return code of the read. -/
theorem report_ignores_high_bits (sj : sensehat_joystick) (e : Int) (r : Nat) :
    (sensehat_joystick_report sj ⟨e, r⟩).ret =
      (sensehat_joystick_report sj ⟨e, r &&& 0b11111⟩).ret ∧
    (sensehat_joystick_report sj ⟨e, r⟩).calls =
      (sensehat_joystick_report sj ⟨e, r &&& 0b11111⟩).calls := by
  by_cases he : e < 0
  · simp [report_fail, he]
  · refine ⟨by rw [report_ret_ok sj e r he, report_ret_ok sj e _ he], ?_⟩
    rw [report_calls_unrolled sj e r he, report_calls_unrolled sj e _ he]
    simp only [testBit_31 r 0 (by decide), testBit_31 r 1 (by decide),
      testBit_31 r 2 (by decide), testBit_31 r 3 (by decide), testBit_31 r 4 (by decide)]

/-- C5, as stated, fails: after a read of `0b11100001` the stored snapshot is
`0b11100001`, not the masked `0b00001`. -/
theorem stored_snapshot_not_masked :
    ¬ ((sensehat_joystick_report ⟨0, 0, 0, 0⟩ ⟨0, 0b11100001⟩).dev.prev_states =
        0b11100001 &&& 0b11111) ∧
    (sensehat_joystick_report ⟨0, 0, 0, 0⟩ ⟨0, 0b11100001⟩).dev.prev_states = 0b11100001 := by
  decide

/-- C5, amended: after a read of `r` that did not fail the stored snapshot is
the raw value `r`; its low five bits are `r AND 0b11111`, and it equals
`r AND 0b11111` when `r` is below 32. The other fields are unchanged. -/
theorem report_stores_raw_value (sj : sensehat_joystick) (e : Int) (r : Nat) (he : ¬ e < 0) :
    (sensehat_joystick_report sj ⟨e, r⟩).dev.prev_states = r ∧
    (sensehat_joystick_report sj ⟨e, r⟩).dev.prev_states &&& 0b11111 = r &&& 0b11111 ∧
    (r < 32 → (sensehat_joystick_report sj ⟨e, r⟩).dev.prev_states = r &&& 0b11111) ∧
    (sensehat_joystick_report sj ⟨e, r⟩).dev = { sj with prev_states := r } := by
  rw [report_dev_ok sj e r he]
  refine ⟨rfl, rfl, ?_, rfl⟩
  intro hr
  have h : (0b11111 : Nat) = 2 ^ 5 - 1 := by decide
  show r = r &&& 0b11111
  rw [h, Nat.and_pow_two_sub_one_of_lt_two_pow (by simpa using hr)]

/-- C5 amended, at `0b00110` from the snapshot `0b00001`. -/
theorem report_stores_raw_value_witness :
    ¬ ((0 : Int) < 0) ∧
    (sensehat_joystick_report ⟨0, 0, 0b00001, 0⟩ ⟨0, 0b00110⟩).dev.prev_states = 0b00110 :=
  ⟨by decide, (report_stores_raw_value ⟨0, 0, 0b00001, 0⟩ 0 0b00110 (by decide)).1⟩

/-! ## The probe functions -/

theorem probe_returns (env : ProbeEnv) (hk : env.devm_kzalloc = true) :
    ∃ r, sensehat_joystick_probe env = some r := by
  obtain ⟨k, a, reg, prop, irq, req⟩ := env
  simp only at hk
  subst hk
  cases a <;> by_cases h1 : reg = 0 <;> by_cases h2 : prop.error = 0 <;>
    by_cases h3 : req irq = 0 <;> simp [sensehat_joystick_probe, h1, h2, h3]

theorem probe_prev_states (env : ProbeEnv) (r : ProbeResult)
    (h : sensehat_joystick_probe env = some r) : r.dev.prev_states = 0 := by
  obtain ⟨k, a, reg, prop, irq, req⟩ := env
  revert h
  cases k <;> cases a <;> by_cases h1 : reg = 0 <;> by_cases h2 : prop.error = 0 <;>
    by_cases h3 : req irq = 0 <;> simp [sensehat_joystick_probe, h1, h2, h3] <;>
    intro h <;> subst h <;> rfl

theorem report_calls_from_zero (sj : sensehat_joystick) (h0 : sj.prev_states = 0)
    (e : Int) (v : Nat) (he : ¬ e < 0) :
    (sensehat_joystick_report sj ⟨e, v⟩).calls =
      (if v.testBit 0 then [SinkCall.reportKey BTN_DPAD_DOWN true] else []) ++
      (if v.testBit 1 then [SinkCall.reportKey BTN_DPAD_RIGHT true] else []) ++
      (if v.testBit 2 then [SinkCall.reportKey BTN_DPAD_UP true] else []) ++
      (if v.testBit 3 then [SinkCall.reportKey BTN_SELECT true] else []) ++
      (if v.testBit 4 then [SinkCall.reportKey BTN_DPAD_LEFT true] else []) ++
      [SinkCall.sync] := by
  rw [report_calls_unrolled sj e v he, h0]
  simp only [Nat.zero_testBit, Bool.bne_false]
  cases v.testBit 0 <;> cases v.testBit 1 <;> cases v.testBit 2 <;> cases v.testBit 3 <;>
    cases v.testBit 4 <;> rfl

/-- C6: a probe whose `devm_kzalloc` succeeded returns with the previous
snapshot zero, and the first handler run on that state whose read of `v` did
not fail calls `reportKey(key of bit i, true)` for exactly the bits 0..4 set in
`v`, in ascending order, then `sync`; it reports no release; a first read of
`0b00001` gives exactly Down pressed, then `sync`. -/
theorem probe_then_first_read_reports_presses (env : ProbeEnv)
    (hk : env.devm_kzalloc = true) :
    ∃ r, sensehat_joystick_probe env = some r ∧ r.dev.prev_states = 0 ∧
      (∀ (e : Int) (v : Nat), ¬ e < 0 →
        (sensehat_joystick_report r.dev ⟨e, v⟩).calls =
          (if v.testBit 0 then [SinkCall.reportKey BTN_DPAD_DOWN true] else []) ++
          (if v.testBit 1 then [SinkCall.reportKey BTN_DPAD_RIGHT true] else []) ++
          (if v.testBit 2 then [SinkCall.reportKey BTN_DPAD_UP true] else []) ++
          (if v.testBit 3 then [SinkCall.reportKey BTN_SELECT true] else []) ++
          (if v.testBit 4 then [SinkCall.reportKey BTN_DPAD_LEFT true] else []) ++
          [SinkCall.sync] ∧
        ∀ c, SinkCall.reportKey c false ∉ (sensehat_joystick_report r.dev ⟨e, v⟩).calls) ∧
      (∀ e : Int, ¬ e < 0 →
        (sensehat_joystick_report r.dev ⟨e, 0b00001⟩).calls =
          [SinkCall.reportKey BTN_DPAD_DOWN true, SinkCall.sync]) := by
  obtain ⟨r, hr⟩ := probe_returns env hk
  have h0 := probe_prev_states env r hr
  refine ⟨r, hr, h0, ?_, ?_⟩
  · intro e v he
    refine ⟨report_calls_from_zero r.dev h0 e v he, ?_⟩
    intro c
    rw [report_calls_from_zero r.dev h0 e v he]
    cases v.testBit 0 <;> cases v.testBit 1 <;> cases v.testBit 2 <;> cases v.testBit 3 <;>
      cases v.testBit 4 <;> simp
  · intro e he
    rw [report_calls_from_zero r.dev h0 e _ he]
    decide

/-- C6 in an environment where every probe step succeeds. -/
theorem probe_then_first_read_reports_presses_witness :
    goodEnv.devm_kzalloc = true ∧
    ∃ r, sensehat_joystick_probe goodEnv = some r ∧ r.ret = 0 ∧ r.dev.prev_states = 0 ∧
      (sensehat_joystick_report r.dev ⟨0, 0b00001⟩).calls =
        [SinkCall.reportKey BTN_DPAD_DOWN true, SinkCall.sync] := by
  refine ⟨rfl, ?_⟩
  obtain ⟨r, hr, h0, _, h1⟩ := probe_then_first_read_reports_presses goodEnv rfl
  refine ⟨r, hr, ?_, h0, h1 0 (by decide)⟩
  have : sensehat_joystick_probe goodEnv = some
      { ret := 0, irq_requested := some 23, handler_armed := true,
        dev := { keybit := (List.range (ARRAY_SIZE keymap)).foldl
                   (fun kb i => set_bit (keymap.getD i 0) kb) 0,
                 evbit := BIT_MASK EV_KEY ||| BIT_MASK EV_REP,
                 prev_states := 0, joystick_register := 0xf2 } } := by
    rfl
  rw [this] at hr
  cases hr
  rfl

/-- C7: in a probe whose `devm_kzalloc` succeeded, a failed input-device
allocation gives `-ENOMEM`, a failed registration or a failed property read
gives the error of that call, and in these three cases the return value is not
zero and `devm_request_threaded_irq` is not called, so no handler is installed;
when these steps succeed the interrupt is requested on the line of
`of_irq_get` and the probe returns what the request returned; the probe
returns 0 exactly when all four steps succeeded, and exactly then the handler
is installed. -/
theorem probe_propagates_errors (env : ProbeEnv) (hk : env.devm_kzalloc = true) :
    ∃ r, sensehat_joystick_probe env = some r ∧
      (env.devm_input_allocate_device = false →
        r.ret = -ENOMEM ∧ r.ret ≠ 0 ∧ r.irq_requested = none ∧ r.handler_armed = false) ∧
      (env.devm_input_allocate_device = true → env.input_register_device ≠ 0 →
        r.ret = env.input_register_device ∧ r.ret ≠ 0 ∧ r.irq_requested = none ∧
        r.handler_armed = false) ∧
      (env.devm_input_allocate_device = true → env.input_register_device = 0 →
        env.device_property_read_u32.error ≠ 0 →
        r.ret = env.device_property_read_u32.error ∧ r.ret ≠ 0 ∧ r.irq_requested = none ∧
        r.handler_armed = false) ∧
      (env.devm_input_allocate_device = true → env.input_register_device = 0 →
        env.device_property_read_u32.error = 0 →
        r.irq_requested = some env.of_irq_get ∧
        r.ret = env.devm_request_threaded_irq env.of_irq_get ∧
        (r.handler_armed = true ↔ env.devm_request_threaded_irq env.of_irq_get = 0)) ∧
      (r.ret = 0 ↔
        (env.devm_input_allocate_device = true ∧ env.input_register_device = 0 ∧
         env.device_property_read_u32.error = 0 ∧
         env.devm_request_threaded_irq env.of_irq_get = 0)) ∧
      (r.handler_armed = true ↔ r.ret = 0) := by
  obtain ⟨k, a, reg, prop, irq, req⟩ := env
  simp only at hk
  subst hk
  have hnomem : -ENOMEM ≠ 0 := by decide
  cases a <;> by_cases h1 : reg = 0 <;> by_cases h2 : prop.error = 0 <;>
    by_cases h3 : req irq = 0 <;> simp [sensehat_joystick_probe, h1, h2, h3, hnomem]

/-- C7 where `input_register_device` fails with `-EINVAL`: the probe returns
`-EINVAL` and does not request the interrupt. -/
theorem probe_propagates_errors_witness :
    registerFailsEnv.devm_kzalloc = true ∧
    ∃ r, sensehat_joystick_probe registerFailsEnv = some r ∧ r.ret = -22 ∧
      r.irq_requested = none ∧ r.handler_armed = false := by
  refine ⟨rfl, ?_⟩
  obtain ⟨r, hr, _, h, _⟩ := probe_propagates_errors registerFailsEnv rfl
  have h2 := h rfl (by decide)
  exact ⟨r, hr, h2.1, h2.2.2.1, h2.2.2.2⟩

/-- C8, the code at its failing input: the register map is created (the
pointer is not an error pointer), `devm_of_platform_populate` is called and
fails with `-ENOMEM`, and `sensehat_probe` returns 0. -/
theorem sensehat_probe_drops_populate_error :
    IS_ERR (-1073741824) = false ∧
    (sensehat_probe { devm_regmap_init_i2c := -1073741824,
                      devm_of_platform_populate := -ENOMEM }).populate_called = true ∧
    (-ENOMEM ≠ 0) ∧
    (sensehat_probe { devm_regmap_init_i2c := -1073741824,
                      devm_of_platform_populate := -ENOMEM }).ret = 0 := by
  decide

/-! ## Equivalence with the reference engine -/

theorem testBit_eq_of_mod_eq (p q i : Nat) (h : p % 2 ^ 5 = q % 2 ^ 5) (hi : i < 5) :
    p.testBit i = q.testBit i := by
  have h1 : (p % 2 ^ 5).testBit i = (q % 2 ^ 5).testBit i := by rw [h]
  rw [Nat.testBit_mod_two_pow, Nat.testBit_mod_two_pow] at h1
  simpa [hi] using h1

theorem ref_events_unrolled (q raw : Nat) :
    (refHandleInterrupt q (some raw)).events =
      (if (raw.testBit 0 != q.testBit 0)
        then [RefEvent.reportKey Button.Down (raw.testBit 0)] else []) ++
      (if (raw.testBit 1 != q.testBit 1)
        then [RefEvent.reportKey Button.Right (raw.testBit 1)] else []) ++
      (if (raw.testBit 2 != q.testBit 2)
        then [RefEvent.reportKey Button.Up (raw.testBit 2)] else []) ++
      (if (raw.testBit 3 != q.testBit 3)
        then [RefEvent.reportKey Button.Select (raw.testBit 3)] else []) ++
      (if (raw.testBit 4 != q.testBit 4)
        then [RefEvent.reportKey Button.Left (raw.testBit 4)] else []) ++
      [RefEvent.sync] := by
  have hW : W = 5 := rfl
  have hm : mask = 31 := by decide
  have t0 := fun x => testBit_31 x 0 (by decide)
  have t1 := fun x => testBit_31 x 1 (by decide)
  have t2 := fun x => testBit_31 x 2 (by decide)
  have t3 := fun x => testBit_31 x 3 (by decide)
  have t4 := fun x => testBit_31 x 4 (by decide)
  simp only [refHandleInterrupt, hW, hm, filter_map_five, t0, t1, t2, t3, t4, Nat.testBit_xor]
  rfl

theorem report_simulates (sj : sensehat_joystick) (q : Nat) (rd : RegmapRead)
    (h : sj.prev_states % 2 ^ 5 = q % 2 ^ 5) :
    outcomeOf (sensehat_joystick_report sj rd).ret =
      (refHandleInterrupt q (busResult rd)).outcome ∧
    (sensehat_joystick_report sj rd).calls =
      (refHandleInterrupt q (busResult rd)).events.map RefEvent.toSinkCall ∧
    (sensehat_joystick_report sj rd).dev.prev_states % 2 ^ 5 =
      (refHandleInterrupt q (busResult rd)).previous % 2 ^ 5 := by
  obtain ⟨e, v⟩ := rd
  by_cases he : e < 0
  · refine ⟨?_, ?_, ?_⟩
    · simp [report_fail, busResult, he, refHandleInterrupt, outcomeOf]
    · simp [report_fail, busResult, he, refHandleInterrupt]
    · simpa [report_fail, busResult, he, refHandleInterrupt] using h
  · have hb : busResult ⟨e, v⟩ = some v := by simp [busResult, he]
    rw [hb, report_ret_ok sj e v he, report_calls_unrolled sj e v he,
      report_dev_ok sj e v he, ref_events_unrolled]
    refine ⟨rfl, ?_, ?_⟩
    · rw [testBit_eq_of_mod_eq _ _ 0 h (by decide), testBit_eq_of_mod_eq _ _ 1 h (by decide),
        testBit_eq_of_mod_eq _ _ 2 h (by decide), testBit_eq_of_mod_eq _ _ 3 h (by decide),
        testBit_eq_of_mod_eq _ _ 4 h (by decide)]
      simp only [List.map_append, apply_ite (List.map RefEvent.toSinkCall), List.map_cons,
        List.map_nil, RefEvent.toSinkCall, Button.code]
    · have hm : mask = 2 ^ 5 - 1 := rfl
      show v % 2 ^ 5 = (v &&& mask) % 2 ^ 5
      rw [hm, Nat.and_pow_two_sub_one_eq_mod, Nat.mod_mod]

theorem run_simulates (reads : List RegmapRead) :
    ∀ (sj : sensehat_joystick) (q : Nat), sj.prev_states % 2 ^ 5 = q % 2 ^ 5 →
      (run sj reads).outcomes.map outcomeOf = (refRun q (reads.map busResult)).outcomes ∧
      (run sj reads).calls = (refRun q (reads.map busResult)).events.map RefEvent.toSinkCall ∧
      (run sj reads).dev.prev_states % 2 ^ 5 =
        (refRun q (reads.map busResult)).previous % 2 ^ 5 := by
  induction reads with
  | nil => intro sj q h; exact ⟨rfl, rfl, h⟩
  | cons rd rest ih =>
    intro sj q h
    obtain ⟨h1, h2, h3⟩ := report_simulates sj q rd h
    obtain ⟨i1, i2, i3⟩ := ih _ _ h3
    refine ⟨?_, ?_, ?_⟩
    · simp only [run, refRun, List.map_cons, h1, i1]
    · simp only [run, refRun, List.map_cons, List.map_append, h2, i2]
    · simpa only [run, refRun, List.map_cons] using i3

/-- C10: for every sequence of bus answers, when the stored word of the driver
and the snapshot of the reference engine agree on bits 0..4, a handler run
whose read did not fail stores the raw value, each handler run
gives the outcome and the sink calls of the reference step and keeps the two
snapshots in agreement on bits 0..4, and the handler run over the whole
sequence gives the same outcomes and the same sink calls as the reference
engine, again ending with snapshots that agree on bits 0..4. -/
theorem handler_refines_masked_reference (sj : sensehat_joystick) (q : Nat)
    (reads : List RegmapRead) (h : sj.prev_states % 2 ^ 5 = q % 2 ^ 5) :
    (∀ (e : Int) (v : Nat), ¬ e < 0 →
      (sensehat_joystick_report sj ⟨e, v⟩).dev.prev_states = v) ∧
    (∀ rd : RegmapRead,
      outcomeOf (sensehat_joystick_report sj rd).ret =
        (refHandleInterrupt q (busResult rd)).outcome ∧
      (sensehat_joystick_report sj rd).calls =
        (refHandleInterrupt q (busResult rd)).events.map RefEvent.toSinkCall ∧
      (sensehat_joystick_report sj rd).dev.prev_states % 2 ^ 5 =
        (refHandleInterrupt q (busResult rd)).previous % 2 ^ 5) ∧
    (run sj reads).outcomes.map outcomeOf = (refRun q (reads.map busResult)).outcomes ∧
    (run sj reads).calls = (refRun q (reads.map busResult)).events.map RefEvent.toSinkCall ∧
    (run sj reads).dev.prev_states % 2 ^ 5 =
      (refRun q (reads.map busResult)).previous % 2 ^ 5 :=
  ⟨fun e v he => by rw [report_dev_ok sj e v he],
   fun rd => report_simulates sj q rd h, run_simulates reads sj q h⟩

/-- C10 on a run where the stored word of the driver leaves the range of the
reference snapshot: reads `0b11100001`, a failure, `0b00000110` from zero. -/
theorem handler_refines_masked_reference_witness :
    (0 : Nat) % 2 ^ 5 = 0 % 2 ^ 5 ∧
    (run ⟨0, 0, 0, 0⟩ [⟨0, 0b11100001⟩, ⟨-5, 0⟩, ⟨0, 0b00000110⟩]).calls =
      (refRun 0 [some 0b11100001, none, some 0b00000110]).events.map RefEvent.toSinkCall ∧
    (run ⟨0, 0, 0, 0⟩ [⟨0, 0b11100001⟩, ⟨-5, 0⟩, ⟨0, 0b00000110⟩]).outcomes.map outcomeOf =
      [HandlerOutcome.Handled, HandlerOutcome.NotHandled, HandlerOutcome.Handled] :=
  have h := handler_refines_masked_reference ⟨0, 0, 0, 0⟩ 0
    [⟨0, 0b11100001⟩, ⟨-5, 0⟩, ⟨0, 0b00000110⟩] rfl
  ⟨rfl, h.2.2.2.1, h.2.2.1.trans (by decide)⟩

/-! ## Consistency of the consumer state with the bus -/

theorem keyEvents_append (k : Nat) (a b : List SinkCall) :
    keyEvents k (a ++ b) = keyEvents k a ++ keyEvents k b := by
  simp [keyEvents, List.filterMap_append]

theorem applyCalls_append (st : Nat → Bool) (a b : List SinkCall) :
    applyCalls st (a ++ b) = applyCalls (applyCalls st a) b := by
  simp [applyCalls, List.foldl_append]

theorem applyCalls_eq_last (cs : List SinkCall) :
    ∀ (st : Nat → Bool) (k : Nat),
      applyCalls st cs k = (keyEvents k cs).foldl (fun _ b => b) (st k) := by
  induction cs with
  | nil => intro st k; rfl
  | cons c rest ih =>
    intro st k
    have hstep : applyCalls st (c :: rest) = applyCalls (applyCall st c) rest := rfl
    rw [hstep, ih]
    cases c with
    | sync => simp [keyEvents, applyCall]
    | reportKey c b =>
      by_cases hk : c = k
      · subst hk; simp [keyEvents, applyCall]
      · have hk2 : ¬ k = c := fun h => hk h.symm
        simp [keyEvents, applyCall, hk, hk2]

theorem keyEvents_ite (k c : Nat) (cond b : Bool) :
    keyEvents k (if cond then [SinkCall.reportKey c b] else []) =
      if (cond && decide (c = k)) then [b] else [] := by
  cases cond <;> by_cases h : c = k <;> simp [keyEvents, h]

theorem keyEvents_report (sj : sensehat_joystick) (e : Int) (v : Nat) (he : ¬ e < 0)
    (k : Nat) :
    keyEvents k (sensehat_joystick_report sj ⟨e, v⟩).calls =
      if (keyState v k != keyState sj.prev_states k) then [keyState v k] else [] := by
  rw [report_calls_unrolled sj e v he]
  have hsync : keyEvents k [SinkCall.sync] = [] := rfl
  simp only [keyEvents_append, keyEvents_ite, hsync, keyState, List.append_nil]
  generalize v.testBit 0 = a0
  generalize v.testBit 1 = a1
  generalize v.testBit 2 = a2
  generalize v.testBit 3 = a3
  generalize v.testBit 4 = a4
  generalize sj.prev_states.testBit 0 = b0
  generalize sj.prev_states.testBit 1 = b1
  generalize sj.prev_states.testBit 2 = b2
  generalize sj.prev_states.testBit 3 = b3
  generalize sj.prev_states.testBit 4 = b4
  by_cases h0 : k = BTN_DPAD_DOWN
  · subst h0
    cases a0 <;> cases b0 <;>
      simp [BTN_DPAD_DOWN, BTN_DPAD_RIGHT, BTN_DPAD_UP, BTN_SELECT, BTN_DPAD_LEFT]
  by_cases h1 : k = BTN_DPAD_RIGHT
  · subst h1
    cases a1 <;> cases b1 <;>
      simp [BTN_DPAD_DOWN, BTN_DPAD_RIGHT, BTN_DPAD_UP, BTN_SELECT, BTN_DPAD_LEFT]
  by_cases h2 : k = BTN_DPAD_UP
  · subst h2
    cases a2 <;> cases b2 <;>
      simp [BTN_DPAD_DOWN, BTN_DPAD_RIGHT, BTN_DPAD_UP, BTN_SELECT, BTN_DPAD_LEFT]
  by_cases h3 : k = BTN_SELECT
  · subst h3
    cases a3 <;> cases b3 <;>
      simp [BTN_DPAD_DOWN, BTN_DPAD_RIGHT, BTN_DPAD_UP, BTN_SELECT, BTN_DPAD_LEFT]
  by_cases h4 : k = BTN_DPAD_LEFT
  · subst h4
    cases a4 <;> cases b4 <;>
      simp [BTN_DPAD_DOWN, BTN_DPAD_RIGHT, BTN_DPAD_UP, BTN_SELECT, BTN_DPAD_LEFT]
  have g0 : ¬ BTN_DPAD_DOWN = k := fun h => h0 h.symm
  have g1 : ¬ BTN_DPAD_RIGHT = k := fun h => h1 h.symm
  have g2 : ¬ BTN_DPAD_UP = k := fun h => h2 h.symm
  have g3 : ¬ BTN_SELECT = k := fun h => h3 h.symm
  have g4 : ¬ BTN_DPAD_LEFT = k := fun h => h4 h.symm
  simp [h0, h1, h2, h3, h4, g0, g1, g2, g3, g4]

theorem applyCalls_report (sj : sensehat_joystick) (e : Int) (v : Nat) (he : ¬ e < 0)
    (st : Nat → Bool) (k : Nat) (hst : st k = keyState sj.prev_states k) :
    applyCalls st (sensehat_joystick_report sj ⟨e, v⟩).calls k = keyState v k := by
  rw [applyCalls_eq_last, keyEvents_report sj e v he, hst]
  cases keyState v k <;> cases keyState sj.prev_states k <;> rfl

theorem applyCalls_run (reads : List RegmapRead) :
    ∀ (sj : sensehat_joystick) (st : Nat → Bool) (k : Nat),
      st k = keyState sj.prev_states k →
      applyCalls st (run sj reads).calls k = keyState (run sj reads).dev.prev_states k := by
  induction reads with
  | nil => intro sj st k h; exact h
  | cons rd rest ih =>
    intro sj st k h
    obtain ⟨e, v⟩ := rd
    have hrun : (run sj (⟨e, v⟩ :: rest)).calls =
        (sensehat_joystick_report sj ⟨e, v⟩).calls ++
          (run (sensehat_joystick_report sj ⟨e, v⟩).dev rest).calls := rfl
    have hdev : (run sj (⟨e, v⟩ :: rest)).dev =
        (run (sensehat_joystick_report sj ⟨e, v⟩).dev rest).dev := rfl
    rw [hrun, hdev, applyCalls_append]
    apply ih
    by_cases he : e < 0
    · rw [report_fail sj e v he]
      exact h
    · rw [applyCalls_report sj e v he st k h, report_dev_ok sj e v he]

theorem alternates_run (reads : List RegmapRead) :
    ∀ (sj : sensehat_joystick) (k : Nat),
      alternates (!keyState sj.prev_states k) (keyEvents k (run sj reads).calls) = true := by
  induction reads with
  | nil => intro sj k; rfl
  | cons rd rest ih =>
    intro sj k
    obtain ⟨e, v⟩ := rd
    have hrun : (run sj (⟨e, v⟩ :: rest)).calls =
        (sensehat_joystick_report sj ⟨e, v⟩).calls ++
          (run (sensehat_joystick_report sj ⟨e, v⟩).dev rest).calls := rfl
    rw [hrun, keyEvents_append]
    by_cases he : e < 0
    · rw [report_fail sj e v he]
      exact ih sj k
    · have hrest := ih (sensehat_joystick_report sj ⟨e, v⟩).dev k
      rw [report_dev_ok sj e v he] at hrest ⊢
      rw [keyEvents_report sj e v he]
      revert hrest
      simp only []
      cases keyState v k <;> cases keyState sj.prev_states k <;>
        simp [alternates]

theorem run_prev_states (reads : List RegmapRead) :
    ∀ sj : sensehat_joystick,
      (run sj reads).dev.prev_states =
        reads.foldl (fun acc rd => if rd.error < 0 then acc else rd.val) sj.prev_states := by
  induction reads with
  | nil => intro sj; rfl
  | cons rd rest ih =>
    intro sj
    obtain ⟨e, v⟩ := rd
    have hdev : (run sj (⟨e, v⟩ :: rest)).dev =
        (run (sensehat_joystick_report sj ⟨e, v⟩).dev rest).dev := rfl
    rw [hdev, ih]
    by_cases he : e < 0
    · simp [report_fail sj e v he, he]
    · simp [report_dev_ok sj e v he, he]

theorem lastSuccessful_getD (reads : List RegmapRead) :
    ∀ (acc : Option Nat) (p : Nat),
      (reads.foldl (fun acc rd => if rd.error < 0 then acc else some rd.val) acc).getD p =
        reads.foldl (fun acc rd => if rd.error < 0 then acc else rd.val) (acc.getD p) := by
  induction reads with
  | nil => intro acc p; rfl
  | cons rd rest ih =>
    intro acc p
    simp only [List.foldl_cons]
    rw [ih]
    by_cases he : rd.error < 0 <;> simp [he]

theorem bits_of_five (m : Fin 32) :
    (if m.val.testBit 0 then 1 else 0) + (if m.val.testBit 1 then 2 else 0) +
    (if m.val.testBit 2 then 4 else 0) + (if m.val.testBit 3 then 8 else 0) +
    (if m.val.testBit 4 then 16 else 0) = m.val := by
  revert m
  decide

theorem buttonBits_keyState (q : Nat) : buttonBits (keyState q) = q % 2 ^ 5 := by
  have hm : q % 2 ^ 5 < 32 := Nat.mod_lt _ (by decide)
  have h := bits_of_five ⟨q % 2 ^ 5, hm⟩
  simp only [Nat.testBit_mod_two_pow] at h
  rw [← h]
  simp [buttonBits, ARRAY_SIZE, keymap, List.range, List.range.loop, keyState, BIT,
    BTN_DPAD_DOWN, BTN_DPAD_RIGHT, BTN_DPAD_UP, BTN_SELECT, BTN_DPAD_LEFT]
  omega

theorem keyState_zero (k : Nat) : keyState 0 k = false := by
  simp [keyState]

theorem keyState_keymap (q i : Nat) (hi : i < 5) :
    keyState q (keymap.getD i 0) = q.testBit i := by
  interval_cases i <;>
    simp [keyState, keymap, BTN_DPAD_DOWN, BTN_DPAD_RIGHT, BTN_DPAD_UP, BTN_SELECT,
      BTN_DPAD_LEFT]

/-- C9: on the driver state left by a probe, after any sequence of bus answers
(failures and values in any order), the key state a consumer obtains by
applying all `reportKey` calls in order to the all-released state is, read as
a bitfield, the low five bits of the last value read without failure, and zero
when no read succeeded; bit by bit, the key of bit `i` is pressed exactly when
bit `i` of that value is set; and for every event code the reported `pressed`
values alternate, starting with a press. -/
theorem sink_state_tracks_last_read (env : ProbeEnv) (r : ProbeResult)
    (reads : List RegmapRead) (hp : sensehat_joystick_probe env = some r) :
    buttonBits (applyCalls allReleased (run r.dev reads).calls) =
      ((lastSuccessful reads).getD 0) % 2 ^ 5 ∧
    (∀ i, i < 5 →
      applyCalls allReleased (run r.dev reads).calls (keymap.getD i 0) =
        ((lastSuccessful reads).getD 0).testBit i) ∧
    (∀ code, alternates true (keyEvents code (run r.dev reads).calls) = true) := by
  have h0 := probe_prev_states env r hp
  have hlast : (run r.dev reads).dev.prev_states = (lastSuccessful reads).getD 0 := by
    rw [run_prev_states, h0]
    exact (lastSuccessful_getD reads none 0).symm
  have hst : applyCalls allReleased (run r.dev reads).calls =
      keyState ((lastSuccessful reads).getD 0) := by
    funext k
    rw [← hlast]
    apply applyCalls_run
    rw [h0, keyState_zero]
    rfl
  refine ⟨?_, ?_, ?_⟩
  · rw [hst, buttonBits_keyState]
  · intro i hi
    rw [hst, keyState_keymap _ i hi]
  · intro code
    have h := alternates_run reads r.dev code
    rw [h0, keyState_zero] at h
    exact h

/-- C9 after a probe in which every step succeeds and the bus answers
`0b11100001`, a failure, `0b00000110`, a failure: the consumer holds Right and
Up pressed, that is `0b00110`. -/
theorem sink_state_tracks_last_read_witness :
    ∃ r, sensehat_joystick_probe goodEnv = some r ∧
      buttonBits (applyCalls allReleased
        (run r.dev [⟨0, 0b11100001⟩, ⟨-5, 0⟩, ⟨0, 0b00000110⟩, ⟨-5, 0⟩]).calls) = 0b00110 := by
  obtain ⟨r, hr⟩ := probe_returns goodEnv rfl
  exact ⟨r, hr, (sink_state_tracks_last_read goodEnv r
    [⟨0, 0b11100001⟩, ⟨-5, 0⟩, ⟨0, 0b00000110⟩, ⟨-5, 0⟩] hr).1.trans (by decide)⟩

end Sensehat
